import Mathlib

/-
Verification development for the DeeperLSTM visual-question-answering model
(src/models/deeperlstm.py).

The model is embedded shallowly over the real numbers:

* tensors are `Fin`-indexed functions into `ℝ`;
* `nn.Linear` is `matVec` (weight-matrix application plus bias);
* `nn.Tanh` is `Real.tanh`; the LSTM gates use the logistic `sigmoid`;
* `nn.Dropout` is modelled by an explicit `training` flag together with an
  explicit multiplicative mask (the realized, already `1/(1-p)`-scaled
  Bernoulli draw).  In evaluation mode (`training = false`) dropout is the
  identity, exactly as in the library;
* `nn.LSTM` (2 layers, unidirectional, `batch_first`, inter-layer dropout)
  is embedded by the standard LSTM recurrences; the library applies the
  recurrence to every batch row independently, so the embedding is per row;
* `torch.norm(x, p=2)` with no `dim` argument is the Frobenius norm of the
  whole tensor, a single scalar (`frobNorm`); `.detach()` is a no-op at the
  level of values;
* `torch.sort(q_lens, descending=True)` is modelled by a stable
  insertion sort on indices (`sortIdx` / `sortPerm`); the library leaves the
  order of ties unspecified, the embedding fixes the stable order.

The value-level model `DeeperLSTM` embeds the well-formed configuration
`image_embed_dim = rnn_output_dim` (written `common` below).  The behaviour
of dimension-mismatched configurations is modelled separately at the shape
level (`Config`, `forwardShape`), following the shape/broadcast rules of the
underlying tensor library.  The `raw_images = False` path is embedded; the
optional feature extractor is an external collaborator outside this model.
-/

namespace VQA

/-- Argsort of the length vector in descending order:
the index list produced by `torch.sort(q_lens, descending=True)`, modelled
by a stable insertion sort of `[0, …, B-1]` with the descending comparison. -/
def sortIdx {B : ℕ} (lens : Fin B → ℕ) : List (Fin B) :=
  List.insertionSort (fun i j => lens j ≤ lens i) (List.finRange B)

/-- Descending-length sort permutation: position `k` of the sorted batch
holds original item `sortPerm lens k`. -/
def sortPerm {B : ℕ} (lens : Fin B → ℕ) (k : Fin B) : Fin B :=
  (sortIdx lens).get ⟨k.val, by
    simp [sortIdx, List.length_insertionSort]⟩

/-! Shape-level model.  The value-level embedding below fixes the
well-formed configuration; the following shape calculus follows the
dimension and broadcast rules of the tensor library and covers arbitrary
configurations, in particular `image_embed_dim ≠ rnn_output_dim`. -/

/-- Construction parameters of the model.  `__init__` performs no
dimension validation whatsoever, so every `Config` constructs successfully. -/
structure Config where
  vocab_size : ℕ
  embed_dim : ℕ
  image_dim : ℕ
  image_embed_dim : ℕ
  hidden_dim : ℕ
  rnn_output_dim : ℕ
  output_dim : ℕ

/-- Shape rule of `nn.Linear(inF, outF)` on a tensor with trailing
dimension `d`: the trailing dimension must equal `inF`. -/
def linearShape (inF outF d : ℕ) : Option ℕ :=
  if d = inF then some outF else none

/-- Shape rule of elementwise `*` on the trailing dimensions `n` and `m` of
two tensors whose leading (batch) dimensions agree: equal dimensions pass
through, and a dimension of size 1 broadcasts against the other. -/
def broadcastDim (n m : ℕ) : Option ℕ :=
  if n = m then some n else if m = 1 then some n else if n = 1 then some m else none

/-- Shape-level forward pass: input shapes are a question batch
`(B, T, Dv)` and an image-feature batch `(B, Di)`.  Each stage applies its
library shape rule in source order: `self.embedding`, the LSTM and the
hidden/cell concatenation (shape `(B, 2·2·hidden_dim)`),
`self.question_embed`, `self.image_embed`, the broadcasting elementwise
fusion, and `self.mlp`.  `none` models a raised shape error; the padded
time length `T` plays no role in any shape rule. -/
def forwardShape (c : Config) (B _T Di Dv : ℕ) : Option (ℕ × ℕ) := do
  let e ← linearShape c.vocab_size c.embed_dim Dv
  let qc ← if e = c.embed_dim then some (2 * (2 * c.hidden_dim)) else none
  let qf ← linearShape (2 * 2 * c.hidden_dim) c.rnn_output_dim qc
  let im ← linearShape c.image_dim c.image_embed_dim Di
  let fu ← broadcastDim qf im
  let out ← linearShape c.rnn_output_dim c.output_dim fu
  pure (B, out)

noncomputable section

/-- Logistic sigmoid, the gate nonlinearity of the LSTM. -/
def sigmoid (x : ℝ) : ℝ := 1 / (1 + Real.exp (-x))

/-- Application of a weight matrix plus bias-free product: `(W x) k = ∑ j, W k j * x j`.
The index type of the input is an arbitrary finite type so that the same
definition serves the flattened hidden/cell concatenation. -/
def matVec {ι : Type} [Fintype ι] {n : ℕ} (W : Fin n → ι → ℝ) (x : ι → ℝ)
    (k : Fin n) : ℝ :=
  ∑ j, W k j * x j

/-- Dropout with an explicit multiplicative mask.  During training the mask
(the realized scaled Bernoulli draw) multiplies the input elementwise;
in evaluation mode dropout is the identity. -/
def dropoutF {ι : Type} (training : Bool) (mask : ι → ℝ) (x : ι → ℝ) : ι → ℝ :=
  if training then fun i => mask i * x i else x

/-- Parameters of one LSTM layer, split into the four gates
(input `I`, forget `F`, cell candidate `G`, output `O`); `w…` act on the
layer input, `u…` on the previous hidden state, `bi…`/`bh…` are the two
bias vectors of the library layer. -/
structure LSTMParams (inD hid : ℕ) where
  wI : Fin hid → Fin inD → ℝ
  wF : Fin hid → Fin inD → ℝ
  wG : Fin hid → Fin inD → ℝ
  wO : Fin hid → Fin inD → ℝ
  uI : Fin hid → Fin hid → ℝ
  uF : Fin hid → Fin hid → ℝ
  uG : Fin hid → Fin hid → ℝ
  uO : Fin hid → Fin hid → ℝ
  biI : Fin hid → ℝ
  biF : Fin hid → ℝ
  biG : Fin hid → ℝ
  biO : Fin hid → ℝ
  bhI : Fin hid → ℝ
  bhF : Fin hid → ℝ
  bhG : Fin hid → ℝ
  bhO : Fin hid → ℝ

/-- One step of the LSTM recurrence on a (hidden, cell) state pair. -/
def lstmCell {inD hid : ℕ} (p : LSTMParams inD hid) (x : Fin inD → ℝ)
    (hc : (Fin hid → ℝ) × (Fin hid → ℝ)) : (Fin hid → ℝ) × (Fin hid → ℝ) :=
  let i := fun k => sigmoid (matVec p.wI x k + p.biI k + matVec p.uI hc.1 k + p.bhI k)
  let f := fun k => sigmoid (matVec p.wF x k + p.biF k + matVec p.uF hc.1 k + p.bhF k)
  let g := fun k => Real.tanh (matVec p.wG x k + p.biG k + matVec p.uG hc.1 k + p.bhG k)
  let o := fun k => sigmoid (matVec p.wO x k + p.biO k + matVec p.uO hc.1 k + p.bhO k)
  let cNew := fun k => f k * hc.2 k + i k * g k
  (fun k => o k * Real.tanh (cNew k), cNew)

/-- State of one LSTM layer after consuming the first `t` inputs of the
sequence `x`; the initial hidden and cell states default to zero, as in the
library when no initial state is passed. -/
def lstmRun {inD hid : ℕ} (p : LSTMParams inD hid) (x : ℕ → Fin inD → ℝ) :
    ℕ → (Fin hid → ℝ) × (Fin hid → ℝ)
  | 0 => (fun _ => 0, fun _ => 0)
  | t + 1 => lstmCell p (x t) (lstmRun p x t)

/-- Reordered token batch, mirroring `ques = ques[sorted_inds]` (line 98). -/
def sortedQues {B vocab : ℕ} (ques : Fin B → ℕ → Fin vocab → ℝ)
    (lens : Fin B → ℕ) : Fin B → ℕ → Fin vocab → ℝ :=
  fun b => ques (sortPerm lens b)

/-- Reordered length vector, mirroring `q_lens = q_lens[sorted_inds]`
(line 98).  The reordered lengths are not consumed by any later step of
`forward` (the pack/pad calls of the source are commented out). -/
def sortedLens {B : ℕ} (lens : Fin B → ℕ) : Fin B → ℕ :=
  fun b => lens (sortPerm lens b)

/-- Descending-length sort permutation packaged as an equivalence, so that
its inverse (the re-ordering a caller would need to apply to recover the
original batch order) is available. -/
def sortPermEquiv {B : ℕ} (lens : Fin B → ℕ) : Fin B ≃ Fin B :=
  Equiv.ofBijective (sortPerm lens) (by
    refine Finite.injective_iff_bijective.mp ?_
    intro k k' h
    have hnd : (sortIdx lens).Nodup :=
      (List.Perm.nodup_iff (List.perm_insertionSort _ _)).mpr (List.nodup_finRange B)
    have hk := (hnd.get_inj_iff).mp h
    have hv := congrArg Fin.val hk
    exact Fin.ext hv)

/-- Frobenius norm of the whole batched tensor: `torch.norm(img_feat, p=2)`
with no `dim` argument reduces over every element and returns one scalar. -/
def frobNorm {B imgD : ℕ} (img : Fin B → Fin imgD → ℝ) : ℝ :=
  Real.sqrt (∑ b, ∑ j, (img b j) ^ 2)

/-- Learned parameters of the DeeperLSTM model, for the well-formed
configuration in which `image_embed_dim = rnn_output_dim = common`.
Field names follow the modules of the source: `embedding` (word projection),
`lstm1`/`lstm2` (the two layers of `self.rnn`), `image_embed`,
`question_embed` (input indexed by hidden/cell selector × layer × unit,
the flattening of `torch.cat((hidden, cell), dim=1)`), and `mlp`. -/
structure DeeperLSTM (vocab embedD imgD hid common outD : ℕ) where
  embeddingW : Fin embedD → Fin vocab → ℝ
  embeddingB : Fin embedD → ℝ
  lstm1 : LSTMParams embedD hid
  lstm2 : LSTMParams hid hid
  imageW : Fin common → Fin imgD → ℝ
  imageB : Fin common → ℝ
  questionW : Fin common → Fin 2 × Fin 2 × Fin hid → ℝ
  questionB : Fin common → ℝ
  mlpW : Fin outD → Fin common → ℝ
  mlpB : Fin outD → ℝ

/-- Explicit dropout randomness for one forward call: one multiplicative
mask per dropout site (embedding, inter-layer LSTM dropout, image branch,
question projection, classifier), indexed by batch row (and time where the
dropped tensor has a time dimension). -/
structure Masks (B embedD hid imgD common : ℕ) where
  emb : Fin B → ℕ → Fin embedD → ℝ
  rnn : Fin B → ℕ → Fin hid → ℝ
  img : Fin B → Fin imgD → ℝ
  ques : Fin B → Fin 2 × Fin 2 × Fin hid → ℝ
  mlp : Fin B → Fin common → ℝ

variable {vocab embedD imgD hid common outD B : ℕ}

/-- Per-step word embedding of one batch row: `self.embedding`
(`Linear(vocab_size, embed_dim)` → `Dropout(0.5)` → `Tanh`), line 100. -/
def embedRow (m : DeeperLSTM vocab embedD imgD hid common outD) (training : Bool)
    (maskE : ℕ → Fin embedD → ℝ) (qrow : ℕ → Fin vocab → ℝ) :
    ℕ → Fin embedD → ℝ :=
  fun t => fun d =>
    Real.tanh
      (dropoutF training (maskE t)
        (fun e => matVec m.embeddingW (qrow t) e + m.embeddingB e) d)

/-- Flattened recurrent state of one batch row after the full padded length
`T`: the two-layer LSTM (`self.rnn`, inter-layer dropout on the layer-1
input) is run over all `T` steps, then the final hidden and cell states of
both layers are concatenated, mirroring lines 107–115.  The index is
(hidden/cell selector, layer, unit). -/
def qEmbedRow (m : DeeperLSTM vocab embedD imgD hid common outD) (training : Bool)
    (maskR : ℕ → Fin hid → ℝ) (e : ℕ → Fin embedD → ℝ) (T : ℕ) :
    Fin 2 × Fin 2 × Fin hid → ℝ :=
  let s0 := lstmRun m.lstm1 e
  let in1 := fun t => dropoutF training (maskR t) (s0 (t + 1)).1
  let s1 := lstmRun m.lstm2 in1
  fun p =>
    if p.1 = (0 : Fin 2) then
      (if p.2.1 = (0 : Fin 2) then (s0 T).1 p.2.2 else (s1 T).1 p.2.2)
    else
      (if p.2.1 = (0 : Fin 2) then (s0 T).2 p.2.2 else (s1 T).2 p.2.2)

/-- Question branch of one batch row: word embedding, two-layer LSTM over
the full padded length, then `self.question_embed`
(`Dropout` → `Linear(4·hidden_dim, rnn_output_dim)` → `Tanh`), lines 100–119. -/
def quesFeatRow (m : DeeperLSTM vocab embedD imgD hid common outD) (training : Bool)
    (maskE : ℕ → Fin embedD → ℝ) (maskR : ℕ → Fin hid → ℝ)
    (maskQ : Fin 2 × Fin 2 × Fin hid → ℝ) (T : ℕ) (qrow : ℕ → Fin vocab → ℝ) :
    Fin common → ℝ :=
  let qe := qEmbedRow m training maskR (embedRow m training maskE qrow) T
  fun r => Real.tanh (matVec m.questionW (dropoutF training maskQ qe) r + m.questionB r)

/-- Image branch of one batch row given the (already normalized) feature
row: `self.image_embed` (`Dropout` → `Linear(image_dim, image_embed_dim)` →
`Tanh`), line 118. -/
def imgFeatRow (m : DeeperLSTM vocab embedD imgD hid common outD) (training : Bool)
    (maskI : Fin imgD → ℝ) (xrow : Fin imgD → ℝ) : Fin common → ℝ :=
  fun r => Real.tanh (matVec m.imageW (dropoutF training maskI xrow) r + m.imageB r)

/-- Classifier head on one fused row: `self.mlp`
(`Dropout` → `Linear(rnn_output_dim, output_dim)`, no final nonlinearity),
line 125. -/
def mlpRow (m : DeeperLSTM vocab embedD imgD hid common outD) (training : Bool)
    (maskM : Fin common → ℝ) (x : Fin common → ℝ) : Fin outD → ℝ :=
  fun o => matVec m.mlpW (dropoutF training maskM x) o + m.mlpB o

/-- Question features of the whole batch as computed by `forward`:
the token batch is reordered by the descending-length sort (lines 97–98)
and each sorted row goes through the question branch. -/
def quesFeatures (m : DeeperLSTM vocab embedD imgD hid common outD) (training : Bool)
    (M : Masks B embedD hid imgD common) (T : ℕ)
    (ques : Fin B → ℕ → Fin vocab → ℝ) (lens : Fin B → ℕ) :
    Fin B → Fin common → ℝ :=
  fun b =>
    quesFeatRow m training (M.emb b) (M.rnn b) (M.ques b) T (sortedQues ques lens b)

/-- Image features of the whole batch as computed by `forward`: the raw
feature tensor is divided by its single global Frobenius norm (line 95,
`.detach()` being a value-level no-op) and each row goes through
`self.image_embed`.  The image rows are NOT reordered by the sort. -/
def imgFeatures (m : DeeperLSTM vocab embedD imgD hid common outD) (training : Bool)
    (M : Masks B embedD hid imgD common) (img : Fin B → Fin imgD → ℝ) :
    Fin B → Fin common → ℝ :=
  fun b => imgFeatRow m training (M.img b) (fun j => img b j / frobNorm img)

/-- Forward pass of the model (lines 88–127, `raw_images = False` path):
normalize the image tensor by its global norm, sort the token batch (and
the length vector, which is then unused) by descending length, run the
question branch on the sorted rows, fuse by elementwise multiplication with
the (un-sorted) image features and classify.  The output rows are returned
in the internally sorted order; no inverse permutation is applied. -/
def forward (m : DeeperLSTM vocab embedD imgD hid common outD) (training : Bool)
    (M : Masks B embedD hid imgD common) (T : ℕ)
    (img : Fin B → Fin imgD → ℝ) (ques : Fin B → ℕ → Fin vocab → ℝ)
    (lens : Fin B → ℕ) : Fin B → Fin outD → ℝ :=
  fun b =>
    mlpRow m training (M.mlp b)
      (fun r => quesFeatures m training M T ques lens b r *
        imgFeatures m training M img b r)

/-- Construction-time weight initialization (`init_weights`, lines 68–86):
the loops over `self.embedding`, `self.image_embed`, `self.question_embed`
and `self.mlp` re-draw exactly the `weight` tensor of each `Linear` layer
(the only members with a `weight` attribute); biases are not touched and
the re-draws of the LSTM weights are commented out in the source.  The
sampled values of `nn.init.uniform_(·, -0.08, 0.08)` enter as explicit
arguments. -/
def initWeights (m : DeeperLSTM vocab embedD imgD hid common outD)
    (rE : Fin embedD → Fin vocab → ℝ) (rI : Fin common → Fin imgD → ℝ)
    (rQ : Fin common → Fin 2 × Fin 2 × Fin hid → ℝ)
    (rM : Fin outD → Fin common → ℝ) :
    DeeperLSTM vocab embedD imgD hid common outD :=
  { m with embeddingW := rE, imageW := rI, questionW := rQ, mlpW := rM }

/-- Model construction (`__init__`): the layers come up with the library's
default parameters `d` and then `init_weights` runs exactly once (line 66),
before any forward pass is possible. -/
def construct (d : DeeperLSTM vocab embedD imgD hid common outD)
    (rE : Fin embedD → Fin vocab → ℝ) (rI : Fin common → Fin imgD → ℝ)
    (rQ : Fin common → Fin 2 × Fin 2 × Fin hid → ℝ)
    (rM : Fin outD → Fin common → ℝ) :
    DeeperLSTM vocab embedD imgD hid common outD :=
  initWeights d rE rI rQ rM

/-! Concrete instances, used to evaluate the embedded model on explicit
inputs (witnesses and counterexamples). -/

/-- All-zero parameters of one LSTM layer. -/
def lstmZero (inD hid : ℕ) : LSTMParams inD hid where
  wI := fun _ _ => 0
  wF := fun _ _ => 0
  wG := fun _ _ => 0
  wO := fun _ _ => 0
  uI := fun _ _ => 0
  uF := fun _ _ => 0
  uG := fun _ _ => 0
  uO := fun _ _ => 0
  biI := fun _ => 0
  biF := fun _ => 0
  biG := fun _ => 0
  biO := fun _ => 0
  bhI := fun _ => 0
  bhF := fun _ => 0
  bhG := fun _ => 0
  bhO := fun _ => 0

/-- Tiny concrete model: every dimension is 1, all parameters vanish except
the question-projection bias (1), the image projection weight (1) and the
classifier weight (1).  On any question input its question features are
`tanh 1`, so the classifier output is `tanh 1 * tanh (imageRow / norm)` —
which makes the image branch of the pipeline directly observable. -/
def M0 : DeeperLSTM 1 1 1 1 1 1 where
  embeddingW := fun _ _ => 0
  embeddingB := fun _ => 0
  lstm1 := lstmZero 1 1
  lstm2 := lstmZero 1 1
  imageW := fun _ _ => 1
  imageB := fun _ => 0
  questionW := fun _ _ => 0
  questionB := fun _ => 1
  mlpW := fun _ _ => 1
  mlpB := fun _ => 0

/-- All-zero dropout masks (irrelevant in evaluation mode). -/
def masksZero (B embedD hid imgD common : ℕ) : Masks B embedD hid imgD common where
  emb := fun _ _ _ => 0
  rnn := fun _ _ _ => 0
  img := fun _ _ => 0
  ques := fun _ _ => 0
  mlp := fun _ _ => 0

/-- Concrete image-feature batch of two items with values 3 and 4; its
global Frobenius norm is √(3² + 4²) = 5, while the per-item norms are 3
and 4. -/
def img34 : Fin 2 → Fin 1 → ℝ := fun b _ => if b = 0 then 3 else 4

/-- All-zero question token batch. -/
def quesZero (B : ℕ) : Fin B → ℕ → Fin 1 → ℝ := fun _ _ _ => 0

/-! Basic properties of the sort permutation. -/

/-- The sorted index list is a permutation of `[0, …, B-1]`. -/
theorem sortIdx_perm {B : ℕ} (lens : Fin B → ℕ) :
    (sortIdx lens).Perm (List.finRange B) :=
  List.perm_insertionSort _ _

/-- The sorted index list lists lengths in descending order. -/
theorem sortIdx_sorted {B : ℕ} (lens : Fin B → ℕ) :
    List.Sorted (fun i j => lens j ≤ lens i) (sortIdx lens) := by
  haveI : IsTotal (Fin B) (fun i j => lens j ≤ lens i) :=
    ⟨fun a b => le_total (lens b) (lens a)⟩
  haveI : IsTrans (Fin B) (fun i j => lens j ≤ lens i) :=
    ⟨fun _ _ _ hab hbc => le_trans hbc hab⟩
  exact List.sorted_insertionSort _ _

/-- Lengths are non-increasing along the sorted batch positions. -/
theorem sortPerm_antitone {B : ℕ} (lens : Fin B → ℕ) {k k' : Fin B} (h : k ≤ k') :
    lens (sortPerm lens k') ≤ lens (sortPerm lens k) := by
  rcases eq_or_lt_of_le h with rfl | hlt
  · exact le_refl _
  · exact (sortIdx_sorted lens).rel_get_of_lt (by exact hlt)

/-- The coercion of `sortPermEquiv` is `sortPerm`. -/
theorem sortPermEquiv_apply {B : ℕ} (lens : Fin B → ℕ) (k : Fin B) :
    sortPermEquiv lens k = sortPerm lens k := rfl

/-- In evaluation mode every dropout site is the identity, so the masks do
not enter the computation at all. -/
theorem dropoutF_eval {ι : Type} (mask x : ι → ℝ) : dropoutF false mask x = x := rfl

/-- An LSTM layer with all-zero parameters stays in the zero state on any
input (the cell candidate gate is `tanh 0 = 0`). -/
theorem lstmRun_zero {inD hid : ℕ} (x : ℕ → Fin inD → ℝ) (t : ℕ) :
    lstmRun (lstmZero inD hid) x t = (fun _ => 0, fun _ => 0) := by
  induction t with
  | zero => rfl
  | succ t ih =>
    rw [lstmRun, ih]
    refine Prod.ext ?_ ?_ <;> funext k <;>
      simp [lstmCell, lstmZero, matVec, Real.tanh_zero]

/-- The flattened recurrent state of `M0` is zero on any input row. -/
theorem M0_qEmbedRow (maskR : ℕ → Fin 1 → ℝ) (e : ℕ → Fin 1 → ℝ) (T : ℕ) :
    qEmbedRow M0 false maskR e T = fun _ => 0 := by
  funext p
  simp [qEmbedRow, M0, lstmRun_zero, dropoutF]

/-- On any input row, the question features of `M0` in evaluation mode are
the constant `tanh 1` (zero recurrent state, zero projection weight, bias 1). -/
theorem M0_quesFeatRow (maskE : ℕ → Fin 1 → ℝ) (maskR : ℕ → Fin 1 → ℝ)
    (maskQ : Fin 2 × Fin 2 × Fin 1 → ℝ) (T : ℕ) (qrow : ℕ → Fin 1 → ℝ) :
    quesFeatRow M0 false maskE maskR maskQ T qrow = fun _ => Real.tanh 1 := by
  funext r
  rw [quesFeatRow, M0_qEmbedRow]
  simp [dropoutF, matVec, M0]

/-- Strict monotonicity of the hyperbolic tangent. -/
theorem tanh_lt_tanh_of_lt {a b : ℝ} (h : a < b) : Real.tanh a < Real.tanh b := by
  rw [Real.tanh_eq_sinh_div_cosh, Real.tanh_eq_sinh_div_cosh,
    div_lt_div_iff₀ (Real.cosh_pos a) (Real.cosh_pos b)]
  have hs : 0 < Real.sinh (b - a) := Real.sinh_pos_iff.mpr (sub_pos.mpr h)
  rw [Real.sinh_sub] at hs
  linarith

/-- Positivity of `tanh 1`. -/
theorem tanh_one_pos : 0 < Real.tanh 1 := by
  have h := tanh_lt_tanh_of_lt (show (0 : ℝ) < 1 by norm_num)
  simpa [Real.tanh_zero] using h

/-- Global norm of the concrete two-item image batch. -/
theorem frobNorm_img34 : frobNorm img34 = 5 := by
  have hsum : (∑ b : Fin 2, ∑ j : Fin 1, (img34 b j) ^ 2) = 25 := by
    simp [img34, Fin.sum_univ_two]
    norm_num
  rw [frobNorm, hsum, show (25 : ℝ) = 5 ^ 2 by norm_num,
    Real.sqrt_sq (by norm_num)]

/-- Global norm of the singleton batch holding item 0 of `img34`. -/
theorem frobNorm_img34_row0 : frobNorm (fun (_ : Fin 1) j => img34 0 j) = 3 := by
  have hsum : (∑ b : Fin 1, ∑ j : Fin 1, (img34 0 j) ^ 2) = 9 := by
    simp [img34]
    norm_num
  rw [frobNorm, hsum, show (9 : ℝ) = 3 ^ 2 by norm_num,
    Real.sqrt_sq (by norm_num)]

/-- Evaluation of the forward pass of `M0` on the two-item batch `img34`
(any lengths, any padded length): row `b` is
`tanh 1 * tanh (img34 b 0 / 5)` — the image factor comes from image row
`b`, normalized by the batch-global norm 5. -/
theorem forward_M0_img34 (lens : Fin 2 → ℕ) (T : ℕ) (b : Fin 2) :
    forward M0 false (masksZero 2 1 1 1 1) T img34 (quesZero 2) lens b 0 =
      Real.tanh 1 * Real.tanh (img34 b 0 / 5) := by
  simp only [forward, quesFeatures, imgFeatures, M0_quesFeatRow]
  simp [imgFeatRow, mlpRow, matVec, dropoutF, M0, masksZero, frobNorm_img34,
    Fin.sum_univ_one]

/-- Evaluation of the forward pass of `M0` on the singleton batch holding
only item 0 of `img34`: the image row is normalized by its own norm 3,
giving `tanh 1 * tanh 1`. -/
theorem forward_M0_single0 (T : ℕ) :
    forward M0 false (masksZero 1 1 1 1 1) T (fun _ j => img34 0 j) (quesZero 1)
        (fun _ => 0) 0 0 = Real.tanh 1 * Real.tanh 1 := by
  have h00 : img34 0 0 = (3 : ℝ) := by simp [img34]
  simp only [forward, quesFeatures, imgFeatures, M0_quesFeatRow]
  simp [imgFeatRow, mlpRow, matVec, dropoutF, M0, masksZero, frobNorm_img34_row0,
    Fin.sum_univ_one, h00]

/-! Claim theorems. -/

/-- C2: the forward pass sorts the batch items by descending true question
length; the token batch and the length vector are reordered by the one and
the same permutation `σ = sortPerm lens`, which is bijective and makes the
lengths non-increasing; and the returned rows stay in this internally
sorted order — row `b` of the output is built from the question tokens of
original item `σ b`, and no inverse permutation is applied before
returning. -/
theorem c2_sort_batch_never_unsorted
    {vocab embedD imgD hid common outD B : ℕ}
    (m : DeeperLSTM vocab embedD imgD hid common outD) (training : Bool)
    (M : Masks B embedD hid imgD common) (T : ℕ)
    (img : Fin B → Fin imgD → ℝ) (ques : Fin B → ℕ → Fin vocab → ℝ)
    (lens : Fin B → ℕ) :
    ∃ σ : Fin B → Fin B,
      σ = sortPerm lens ∧
      Function.Bijective σ ∧
      (∀ k k' : Fin B, k ≤ k' → lens (σ k') ≤ lens (σ k)) ∧
      sortedQues ques lens = (fun b => ques (σ b)) ∧
      sortedLens lens = (fun b => lens (σ b)) ∧
      (∀ b, forward m training M T img ques lens b =
        mlpRow m training (M.mlp b)
          (fun r =>
            quesFeatRow m training (M.emb b) (M.rnn b) (M.ques b) T (ques (σ b)) r *
              imgFeatRow m training (M.img b) (fun j => img b j / frobNorm img) r)) :=
  ⟨sortPerm lens, rfl, (sortPermEquiv lens).bijective,
    fun _ _ h => sortPerm_antitone lens h, rfl, rfl, fun _ => rfl⟩

/-- C5: the image branch of the forward pass divides the whole feature
tensor by the single scalar `√(∑ b' j', img b' j' ^ 2)` — the Frobenius
norm of the entire batched tensor, not a per-item norm — and then applies
dropout, the linear map `image_dim → image_embed_dim` and `tanh`.
(The `.detach()` on the norm concerns gradient tracking only and is a
no-op at the level of computed values.) -/
theorem c5_image_path_global_norm
    {vocab embedD imgD hid common outD B : ℕ}
    (m : DeeperLSTM vocab embedD imgD hid common outD) (training : Bool)
    (M : Masks B embedD hid imgD common) (T : ℕ)
    (img : Fin B → Fin imgD → ℝ) (ques : Fin B → ℕ → Fin vocab → ℝ)
    (lens : Fin B → ℕ) :
    forward m training M T img ques lens = fun b =>
      mlpRow m training (M.mlp b)
        (fun r =>
          quesFeatures m training M T ques lens b r *
            Real.tanh
              (matVec m.imageW
                (dropoutF training (M.img b)
                  (fun j => img b j / Real.sqrt (∑ b', ∑ j', (img b' j') ^ 2))) r +
                m.imageB r)) := rfl

/-- C8: in evaluation mode (`training = false`, every dropout disabled)
the forward pass is a deterministic function of the parameters and the
inputs: the dropout randomness (the masks) does not influence the output,
so two invocations on identical inputs agree. -/
theorem c8_eval_mode_deterministic
    {vocab embedD imgD hid common outD B : ℕ}
    (m : DeeperLSTM vocab embedD imgD hid common outD)
    (M M' : Masks B embedD hid imgD common) (T : ℕ)
    (img : Fin B → Fin imgD → ℝ) (ques : Fin B → ℕ → Fin vocab → ℝ)
    (lens : Fin B → ℕ) :
    forward m false M T img ques lens = forward m false M' T img ques lens := rfl

/-- C9: the length vector influences the forward pass only through the
descending-sort permutation it induces — the recurrent encoder runs over
the full padded length without masking or packing, and the reordered
length vector itself is never consumed — so any two length vectors with
the same sort permutation give identical outputs. -/
theorem c9_lengths_only_via_sortPerm
    {vocab embedD imgD hid common outD B : ℕ}
    (m : DeeperLSTM vocab embedD imgD hid common outD) (training : Bool)
    (M : Masks B embedD hid imgD common) (T : ℕ)
    (img : Fin B → Fin imgD → ℝ) (ques : Fin B → ℕ → Fin vocab → ℝ)
    (lens lens' : Fin B → ℕ) (h : sortPerm lens = sortPerm lens') :
    forward m training M T img ques lens = forward m training M T img ques lens' := by
  funext b
  simp only [forward, quesFeatures, sortedQues, h]

/-- C10: with precomputed image features, scaling the image tensor by any
positive scalar `c` does not change the forward output, because the tensor
is divided by its own global L2 norm before any learned layer sees it. -/
theorem c10_image_scale_invariance
    {vocab embedD imgD hid common outD B : ℕ}
    (m : DeeperLSTM vocab embedD imgD hid common outD) (training : Bool)
    (M : Masks B embedD hid imgD common) (T : ℕ)
    (img : Fin B → Fin imgD → ℝ) (ques : Fin B → ℕ → Fin vocab → ℝ)
    (lens : Fin B → ℕ) (c : ℝ) (hc : 0 < c) :
    forward m training M T (fun b j => c * img b j) ques lens =
      forward m training M T img ques lens := by
  have hnorm : frobNorm (fun b j => c * img b j) = c * frobNorm img := by
    unfold frobNorm
    have hsum : (∑ b, ∑ j, (c * img b j) ^ 2) = c ^ 2 * ∑ b, ∑ j, (img b j) ^ 2 := by
      simp only [Finset.mul_sum, mul_pow]
    rw [hsum, Real.sqrt_mul (sq_nonneg c), Real.sqrt_sq hc.le]
  have him : imgFeatures m training M (fun b j => c * img b j) =
      imgFeatures m training M img := by
    funext b r
    have hrow : (fun j => c * img b j / frobNorm (fun b' j' => c * img b' j')) =
        fun j => img b j / frobNorm img := by
      funext j
      rw [hnorm, mul_div_mul_left _ _ (ne_of_gt hc)]
    simp only [imgFeatures, hrow]
  funext b
  simp only [forward, him]

/-- C1 (bug demonstration): with lengths `[0, 1]` the descending sort puts
original item 1 at row 0, so row 0 of the output carries the question
content of item 1; yet its image factor is `tanh (3/5)`, i.e. image row 0
(value 3) normalized by the batch norm 5 — the image tensor is never
reordered by `sorted_inds`, so the fusion multiplies embeddings of two
different original items.  The correctly paired value, using item 1's
image row (value 4), would be the different number `tanh 1 * tanh (4/5)`. -/
theorem c1_fusion_mispairing :
    sortPerm (fun k : Fin 2 => if k = 0 then 0 else 1) 0 = 1 ∧
    forward M0 false (masksZero 2 1 1 1 1) 1 img34 (quesZero 2)
        (fun k => if k = 0 then 0 else 1) 0 0 = Real.tanh 1 * Real.tanh (3 / 5) ∧
    Real.tanh 1 * Real.tanh (3 / 5) ≠ Real.tanh 1 * Real.tanh (4 / 5) := by
  refine ⟨by decide, ?_, ?_⟩
  · rw [forward_M0_img34]
    norm_num [img34]
  · exact ne_of_lt
      (mul_lt_mul_of_pos_left (tanh_lt_tanh_of_lt (by norm_num)) tanh_one_pos)

/-- C3 (amended): in evaluation mode, applying the inverse of the
descending-sort permutation to the question-feature stage of the forward
pass recovers exactly, for every item, the question features computed by an
independent run on that item alone as a batch of size 1 (the recurrent
encoder processes batch rows independently, and the sorted position of the
singleton batch is its only position).  The analogous round trip for the
full forward output fails, see the counterexample. -/
theorem c3_question_features_roundtrip
    {vocab embedD imgD hid common outD B : ℕ}
    (m : DeeperLSTM vocab embedD imgD hid common outD)
    (M : Masks B embedD hid imgD common) (M1 : Masks 1 embedD hid imgD common)
    (T : ℕ) (ques : Fin B → ℕ → Fin vocab → ℝ) (lens : Fin B → ℕ) (i : Fin B) :
    quesFeatures m false M T ques lens ((sortPermEquiv lens).symm i) =
      quesFeatures m false M1 T (fun _ => ques i) (fun _ => lens i) 0 := by
  have h : sortPerm lens ((sortPermEquiv lens).symm i) = i :=
    (sortPermEquiv lens).apply_symm_apply i
  simp only [quesFeatures, sortedQues, h]
  rfl

/-- C3 (counterexample to the claim as stated): a two-item batch with equal
lengths, so that the sort permutation is the identity and no inverse
re-indexing is even needed; still the forward output of row 0 differs from
the forward output of item 0 run alone as a batch of size 1, because the
batch run normalizes image row 0 by the global norm √(3²+4²) = 5 while the
singleton run normalizes it by its own norm 3. -/
theorem c3_counterexample :
    (∀ k : Fin 2, sortPerm (fun _ : Fin 2 => 0) k = k) ∧
    forward M0 false (masksZero 2 1 1 1 1) 0 img34 (quesZero 2) (fun _ => 0) 0 0 ≠
      forward M0 false (masksZero 1 1 1 1 1) 0 (fun _ j => img34 0 j) (quesZero 1)
        (fun _ => 0) 0 0 := by
  refine ⟨by decide, ?_⟩
  rw [forward_M0_img34, forward_M0_single0]
  have h35 : Real.tanh (img34 0 0 / 5) = Real.tanh (3 / 5) := by norm_num [img34]
  rw [h35]
  exact ne_of_lt
    (mul_lt_mul_of_pos_left (tanh_lt_tanh_of_lt (by norm_num)) tanh_one_pos)

/-- C4: in the concrete scenario (vocab 10, embed 4, image 8, image-embed 6,
hidden 4, rnn-output 6, output 3) the shape-level forward pass succeeds for
every batch size and every padded sequence length, returning shape
`(B, 3)` — in particular `(2, 3)` for the two-item batch — and with lengths
`[3, 1]` the descending sort keeps item 0 (the length-3 item) at row 0.
(The value-level `forward` is a total function, so no error can be raised
on well-formed shapes.) -/
theorem c4_concrete_shape :
    (∀ B T : ℕ, forwardShape ⟨10, 4, 8, 6, 4, 6, 3⟩ B T 8 10 = some (B, 3)) ∧
    sortPerm (fun k : Fin 2 => if k = 0 then 3 else 1) 0 = 0 ∧
    sortPerm (fun k : Fin 2 => if k = 0 then 3 else 1) 1 = 1 :=
  ⟨fun _ _ => rfl, by decide, by decide⟩

/-- C6: construction runs `init_weights` exactly once, after the library
defaults `d` are set up and before any forward pass is possible; it
replaces exactly the weight matrices of the four linear projection layers
(embedding, image_embed, question_embed, mlp) by the sampled uniform
values — which lie in `[-0.08, 0.08]` — and leaves every bias and every
parameter of the recurrent encoder at the library default. -/
theorem c6_init_uniform_weights
    {vocab embedD imgD hid common outD : ℕ}
    (d : DeeperLSTM vocab embedD imgD hid common outD)
    (rE : Fin embedD → Fin vocab → ℝ) (rI : Fin common → Fin imgD → ℝ)
    (rQ : Fin common → Fin 2 × Fin 2 × Fin hid → ℝ)
    (rM : Fin outD → Fin common → ℝ)
    (hE : ∀ k j, rE k j ∈ Set.Icc (-0.08 : ℝ) 0.08)
    (hI : ∀ k j, rI k j ∈ Set.Icc (-0.08 : ℝ) 0.08)
    (hQ : ∀ k j, rQ k j ∈ Set.Icc (-0.08 : ℝ) 0.08)
    (hM : ∀ k j, rM k j ∈ Set.Icc (-0.08 : ℝ) 0.08) :
    (construct d rE rI rQ rM).embeddingW = rE ∧
    (construct d rE rI rQ rM).imageW = rI ∧
    (construct d rE rI rQ rM).questionW = rQ ∧
    (construct d rE rI rQ rM).mlpW = rM ∧
    (∀ k j, (construct d rE rI rQ rM).embeddingW k j ∈ Set.Icc (-0.08 : ℝ) 0.08) ∧
    (∀ k j, (construct d rE rI rQ rM).imageW k j ∈ Set.Icc (-0.08 : ℝ) 0.08) ∧
    (∀ k j, (construct d rE rI rQ rM).questionW k j ∈ Set.Icc (-0.08 : ℝ) 0.08) ∧
    (∀ k j, (construct d rE rI rQ rM).mlpW k j ∈ Set.Icc (-0.08 : ℝ) 0.08) ∧
    (construct d rE rI rQ rM).embeddingB = d.embeddingB ∧
    (construct d rE rI rQ rM).imageB = d.imageB ∧
    (construct d rE rI rQ rM).questionB = d.questionB ∧
    (construct d rE rI rQ rM).mlpB = d.mlpB ∧
    (construct d rE rI rQ rM).lstm1 = d.lstm1 ∧
    (construct d rE rI rQ rM).lstm2 = d.lstm2 :=
  ⟨rfl, rfl, rfl, rfl, hE, hI, hQ, hM, rfl, rfl, rfl, rfl, rfl, rfl⟩

/-- Witness for C6 at a concrete instance: default model `M0`, all draws 0. -/
theorem c6_init_uniform_weights_witness :
    (construct M0 (fun _ _ => 0) (fun _ _ => 0) (fun _ _ => 0) (fun _ _ => 0)).embeddingW
        = (fun _ _ => 0) ∧
    (construct M0 (fun _ _ => 0) (fun _ _ => 0) (fun _ _ => 0) (fun _ _ => 0)).imageW
        = (fun _ _ => 0) ∧
    (construct M0 (fun _ _ => 0) (fun _ _ => 0) (fun _ _ => 0) (fun _ _ => 0)).questionW
        = (fun _ _ => 0) ∧
    (construct M0 (fun _ _ => 0) (fun _ _ => 0) (fun _ _ => 0) (fun _ _ => 0)).mlpW
        = (fun _ _ => 0) ∧
    (∀ k j, (construct M0 (fun _ _ => 0) (fun _ _ => 0) (fun _ _ => 0) (fun _ _ => 0)).embeddingW k j
        ∈ Set.Icc (-0.08 : ℝ) 0.08) ∧
    (∀ k j, (construct M0 (fun _ _ => 0) (fun _ _ => 0) (fun _ _ => 0) (fun _ _ => 0)).imageW k j
        ∈ Set.Icc (-0.08 : ℝ) 0.08) ∧
    (∀ k j, (construct M0 (fun _ _ => 0) (fun _ _ => 0) (fun _ _ => 0) (fun _ _ => 0)).questionW k j
        ∈ Set.Icc (-0.08 : ℝ) 0.08) ∧
    (∀ k j, (construct M0 (fun _ _ => 0) (fun _ _ => 0) (fun _ _ => 0) (fun _ _ => 0)).mlpW k j
        ∈ Set.Icc (-0.08 : ℝ) 0.08) ∧
    (construct M0 (fun _ _ => 0) (fun _ _ => 0) (fun _ _ => 0) (fun _ _ => 0)).embeddingB
        = M0.embeddingB ∧
    (construct M0 (fun _ _ => 0) (fun _ _ => 0) (fun _ _ => 0) (fun _ _ => 0)).imageB
        = M0.imageB ∧
    (construct M0 (fun _ _ => 0) (fun _ _ => 0) (fun _ _ => 0) (fun _ _ => 0)).questionB
        = M0.questionB ∧
    (construct M0 (fun _ _ => 0) (fun _ _ => 0) (fun _ _ => 0) (fun _ _ => 0)).mlpB
        = M0.mlpB ∧
    (construct M0 (fun _ _ => 0) (fun _ _ => 0) (fun _ _ => 0) (fun _ _ => 0)).lstm1
        = M0.lstm1 ∧
    (construct M0 (fun _ _ => 0) (fun _ _ => 0) (fun _ _ => 0) (fun _ _ => 0)).lstm2
        = M0.lstm2 :=
  c6_init_uniform_weights M0 (fun _ _ => 0) (fun _ _ => 0) (fun _ _ => 0) (fun _ _ => 0)
    (fun _ _ => by norm_num) (fun _ _ => by norm_num)
    (fun _ _ => by norm_num) (fun _ _ => by norm_num)

/-- On the model's own input shapes, the shape-level forward pass reduces
to the fusion broadcast followed by the classifier's dimension check (all
earlier stages succeed by construction). -/
theorem forwardShape_eval (c : Config) (B T : ℕ) :
    forwardShape c B T c.image_dim c.vocab_size =
      (broadcastDim c.rnn_output_dim c.image_embed_dim).bind
        (fun fu => (linearShape c.rnn_output_dim c.output_dim fu).bind
          (fun out => some (B, out))) := by
  unfold forwardShape linearShape
  simp [show 2 * (2 * c.hidden_dim) = 2 * 2 * c.hidden_dim by ring]

/-- C7 (amended): construction never validates the dimensions.  When
`image_embed_dim ≠ rnn_output_dim`, the forward pass fails at the fusion
step exactly when neither dimension is 1; if `image_embed_dim = 1` the
elementwise multiplication broadcasts silently and the whole forward pass
succeeds with output dimension `output_dim`; if `rnn_output_dim = 1` the
fusion also broadcasts silently (to width `image_embed_dim`) and the
failure only surfaces later, at the classifier's linear layer. -/
theorem c7_mismatch_broadcast
    (c : Config) (B T : ℕ) (hne : c.image_embed_dim ≠ c.rnn_output_dim) :
    (c.image_embed_dim ≠ 1 → c.rnn_output_dim ≠ 1 →
      broadcastDim c.rnn_output_dim c.image_embed_dim = none ∧
      forwardShape c B T c.image_dim c.vocab_size = none) ∧
    (c.image_embed_dim = 1 →
      broadcastDim c.rnn_output_dim c.image_embed_dim = some c.rnn_output_dim ∧
      forwardShape c B T c.image_dim c.vocab_size = some (B, c.output_dim)) ∧
    (c.rnn_output_dim = 1 →
      broadcastDim c.rnn_output_dim c.image_embed_dim = some c.image_embed_dim ∧
      forwardShape c B T c.image_dim c.vocab_size = none) := by
  refine ⟨?_, ?_, ?_⟩
  · intro h1 h2
    have hbc : broadcastDim c.rnn_output_dim c.image_embed_dim = none := by
      unfold broadcastDim
      rw [if_neg (Ne.symm hne), if_neg h1, if_neg h2]
    exact ⟨hbc, by rw [forwardShape_eval, hbc]; rfl⟩
  · intro h1
    have hbc : broadcastDim c.rnn_output_dim c.image_embed_dim =
        some c.rnn_output_dim := by
      unfold broadcastDim
      rw [if_neg (Ne.symm (h1 ▸ hne)), if_pos h1]
    refine ⟨hbc, ?_⟩
    rw [forwardShape_eval, hbc]
    simp [linearShape]
  · intro h2
    have h1 : c.image_embed_dim ≠ 1 := fun h => hne (h.trans h2.symm)
    have hbc : broadcastDim c.rnn_output_dim c.image_embed_dim =
        some c.image_embed_dim := by
      unfold broadcastDim
      rw [if_neg (Ne.symm hne), if_neg h1, if_pos h2]
    refine ⟨hbc, ?_⟩
    rw [forwardShape_eval, hbc]
    simp [linearShape, h2, h1]

/-- Witness for C7 (amended) at a concrete mismatched configuration:
`rnn_output_dim = 1`, `image_embed_dim = 2` — the fusion silently
broadcasts to width 2 and the failure surfaces only at the classifier. -/
theorem c7_mismatch_broadcast_witness :
    broadcastDim 1 2 = some 2 ∧ forwardShape ⟨1, 1, 1, 2, 1, 1, 1⟩ 1 1 1 1 = none :=
  (c7_mismatch_broadcast ⟨1, 1, 1, 2, 1, 1, 1⟩ 1 1 (by decide)).2.2 rfl

/-- C7 (counterexample to the claim as stated): with `image_embed_dim = 1`
and `rnn_output_dim = 2` the dimensions mismatch, yet construction is not
rejected and the fusion step silently broadcasts — indeed the whole
forward pass succeeds, returning shape `(1, 1)`. -/
theorem c7_counterexample :
    (⟨1, 1, 1, 1, 1, 2, 1⟩ : Config).image_embed_dim ≠
      (⟨1, 1, 1, 1, 1, 2, 1⟩ : Config).rnn_output_dim ∧
    broadcastDim 2 1 = some 2 ∧
    forwardShape ⟨1, 1, 1, 1, 1, 2, 1⟩ 1 1 1 1 = some (1, 1) := by decide

/-- Witness for C9 at concrete inputs: the length vectors `[5, 2]` and
`[7, 1]` differ but induce the same descending-sort permutation, hence the
same forward output. -/
theorem c9_lengths_only_via_sortPerm_witness :
    forward M0 false (masksZero 2 1 1 1 1) 0 img34 (quesZero 2)
        (fun k : Fin 2 => if k = 0 then 5 else 2) =
      forward M0 false (masksZero 2 1 1 1 1) 0 img34 (quesZero 2)
        (fun k : Fin 2 => if k = 0 then 7 else 1) :=
  c9_lengths_only_via_sortPerm M0 false (masksZero 2 1 1 1 1) 0 img34 (quesZero 2)
    _ _ (by decide)

/-- Witness for C10 at concrete inputs: doubling the two-item image batch
leaves the forward output unchanged. -/
theorem c10_image_scale_invariance_witness :
    forward M0 false (masksZero 2 1 1 1 1) 0 (fun b j => 2 * img34 b j) (quesZero 2)
        (fun _ => 0) =
      forward M0 false (masksZero 2 1 1 1 1) 0 img34 (quesZero 2) (fun _ => 0) :=
  c10_image_scale_invariance M0 false (masksZero 2 1 1 1 1) 0 img34 (quesZero 2)
    (fun _ => 0) 2 (by norm_num)

end

end VQA
